import Mathlib

/-!
Verification of the distance-fading material feature of
`src/@here/materials/lib/MapMeshMaterials.ts` (harp.gl).

The TypeScript is shallowly embedded: JS numbers are modelled as `ℚ`
(all operations used are multiplication and order comparisons, which are
exact on the inputs that matter here), optional (`undefined`-able)
values as `Option`, the `defines` object and shader uniform sets as
association lists keyed by `String`, and mutation as explicit state
passing over a record type.
-/

/-- `FadingFeature.DEFAULT_FADE_NEAR` (sentinel meaning "disabled"). -/
def DEFAULT_FADE_NEAR : ℚ := -1

/-- `FadingFeature.DEFAULT_FADE_FAR` (sentinel meaning "disabled"). -/
def DEFAULT_FADE_FAR : ℚ := -1

/-- Key/value store used for both the material `defines` object and the
shader `uniforms` object: setting a key overwrites an existing binding or
appends a fresh one, like a JS property assignment. -/
def assocSet {α : Type} (l : List (String × α)) (k : String) (v : α) :
    List (String × α) :=
  match l with
  | [] => [(k, v)]
  | (k0, v0) :: rest =>
      if k0 = k then (k, v) :: rest else (k0, v0) :: assocSet rest k v

/-- Whether the key is present in the store (a JS `in` / truthy-property check). -/
def assocHas {α : Type} (l : List (String × α)) (k : String) : Bool :=
  l.any (fun e => e.1 = k)

/-- State of a material implementing `FadingFeature` through
`FadingFeatureMixin`: the mixin's private `m_fadeNear`/`m_fadeFar` numbers
(initialised to the sentinels, never `undefined`), the inherited THREE
material properties `needsUpdate`, `defines`, `transparent` and
`uniformsNeedUpdate` (the first, second and last start out `undefined`,
modelled as `none`). -/
structure FadingMixinState where
  needsUpdate : Option Bool
  defines : Option (List (String × String))
  m_fadeNear : ℚ
  m_fadeFar : ℚ
  transparent : Bool
  uniformsNeedUpdate : Option Bool
deriving DecidableEq, Repr

/-- `FadingFeatureMixin.getFadeNear`. -/
def getFadeNear (m : FadingMixinState) : ℚ := m.m_fadeNear

/-- `FadingFeatureMixin.getFadeFar`. -/
def getFadeFar (m : FadingMixinState) : ℚ := m.m_fadeFar

/-- `FadingFeature.updateDistanceFadeFeature`: sets `needsUpdate` to `true`,
creates the `defines` object if it is `undefined`, and, when the material's
`fadeFar` (read through the mixin getter, hence never `undefined`) is
positive, writes the no-value define `FADING_MATERIAL` (value `""`).
It never deletes that define. -/
def updateDistanceFadeFeature (m : FadingMixinState) : FadingMixinState :=
  let m1 : FadingMixinState := { m with needsUpdate := some true }
  let m2 : FadingMixinState :=
    match m1.defines with
    | none => { m1 with defines := some [] }
    | some _ => m1
  if 0 < getFadeFar m2 then
    { m2 with defines := some (assocSet (m2.defines.getD []) "FADING_MATERIAL" "") }
  else m2

/-- `FadingFeatureMixin.setFadeNear`:
`this.needsUpdate = this.needsUpdate || value !== this.m_fadeNear` (an
`undefined` flag is falsy), then store the value, then run
`updateDistanceFadeFeature` iff the flag is (now) truthy. -/
def setFadeNear (m : FadingMixinState) (value : ℚ) : FadingMixinState :=
  let m1 : FadingMixinState :=
    { m with
      needsUpdate := some (m.needsUpdate.getD false || value != m.m_fadeNear),
      m_fadeNear := value }
  if m1.needsUpdate.getD false then updateDistanceFadeFeature m1 else m1

/-- `FadingFeatureMixin.setFadeFar`, same shape as `setFadeNear`. -/
def setFadeFar (m : FadingMixinState) (value : ℚ) : FadingMixinState :=
  let m1 : FadingMixinState :=
    { m with
      needsUpdate := some (m.needsUpdate.getD false || value != m.m_fadeFar),
      m_fadeFar := value }
  if m1.needsUpdate.getD false then updateDistanceFadeFeature m1 else m1

/-- Whether the fade-enabled define `FADING_MATERIAL` is present in the
material's defines map (`false` when the map itself is still `undefined`). -/
def definesHasFading (m : FadingMixinState) : Bool :=
  match m.defines with
  | none => false
  | some d => assocHas d "FADING_MATERIAL"

/-- `FadingFeatureParameters` (both fields optional). -/
structure FadingFeatureParameters where
  fadeNear : Option ℚ
  fadeFar : Option ℚ
deriving DecidableEq, Repr

/-- Field initialisers of `FadingFeatureMixin` together with the relevant
defaults of a freshly constructed THREE material (`transparent: false`,
`defines`/`needsUpdate`/`uniformsNeedUpdate` undefined). -/
def initFadingMixinState : FadingMixinState :=
  { needsUpdate := none
    defines := none
    m_fadeNear := DEFAULT_FADE_NEAR
    m_fadeFar := DEFAULT_FADE_FAR
    transparent := false
    uniformsNeedUpdate := none }

/-- `FadingFeatureMixin.applyFadingParameters` (parameter part): when params
are given, apply `fadeNear` then `fadeFar` through the setters, each only if
supplied. (The part that installs the `onBeforeCompile` callback is modelled
separately by `onBeforeCompile` below.) -/
def applyFadingParameters (m : FadingMixinState)
    (params : Option FadingFeatureParameters) : FadingMixinState :=
  match params with
  | none => m
  | some p =>
      let mA : FadingMixinState :=
        match p.fadeNear with
        | some fn => setFadeNear m fn
        | none => m
      match p.fadeFar with
      | some ff => setFadeFar mA ff
      | none => mA

/-- State effect of the `MapMeshBasicMaterial` constructor on its own
material state: the base constructor yields a fresh material, then the
fading parameters are applied. (The constructor's one other effect, the
global shader-chunk patch, acts on the process-wide registry and is
modelled by `patchGlobalShaderChunks` below.) -/
def newMapMeshBasicMaterial (params : Option FadingFeatureParameters) :
    FadingMixinState :=
  applyFadingParameters initFadingMixinState params

/-- `FadingFeatureMixin.copyFadingParameters`: sets `fadeNear`/`fadeFar` from
the source material through the setters; the source values are read through
the mixin getters, hence never `undefined`, so the `undefined`-to-sentinel
fallback of the source collapses to the getter value. -/
def copyFadingParameters (m source : FadingMixinState) : FadingMixinState :=
  setFadeFar (setFadeNear m (getFadeNear source)) (getFadeFar source)

/-- `MapMeshBasicMaterial.copy`: `super.copy(source)` copies the base THREE
material properties (of the fields modelled here, `transparent`), then
`copyFadingParameters` copies the fading values. -/
def copyMaterial (m source : FadingMixinState) : FadingMixinState :=
  copyFadingParameters { m with transparent := source.transparent } source

/-- `MapMeshBasicMaterial.clone`: `new MapMeshBasicMaterial().copy(this)`. -/
def cloneMaterial (source : FadingMixinState) : FadingMixinState :=
  copyMaterial (newMapMeshBasicMaterial none) source

/-- First-occurrence string replacement, the semantics of the JS
`String.prototype.replace` call with a string pattern used by
`insertShaderInclude`: replace the leftmost occurrence of `p` by `r`,
return the input unchanged when `p` does not occur. Shader text is
modelled as `List Char`. -/
def listReplaceFirst (p r s : List Char) : List Char :=
  if p.isPrefixOf s then r ++ s.drop p.length
  else
    match s with
    | [] => []
    | c :: cs => c :: listReplaceFirst p r cs

/-- Whether `p` occurs as a contiguous substring of `s`. -/
def containsSub (p s : List Char) : Bool :=
  if p.isPrefixOf s then true
  else
    match s with
    | [] => false
    | _ :: cs => containsSub p cs

/-- The text of an include directive, the anchor/pattern string
interpolated in `insertShaderInclude`. -/
def includeDirective (shaderName : List Char) : List Char :=
  "#include <".toList ++ shaderName ++ ">".toList

/-- The replacement text built by `insertShaderInclude` from the template
literal: a leading newline, the anchor directive again, the start marker
comment, the optional tab, the inserted directive, and the end marker
comment with a trailing newline. -/
def patchedIncludeBlock (shaderName insertedShaderName : List Char)
    (addTab : Option Bool) : List Char :=
  let tabChar : List Char := if addTab = some true then ['\t'] else []
  "\n".toList ++ includeDirective shaderName ++
    "\n// << Patched fading shader START >>\n".toList ++
    tabChar ++ includeDirective insertedShaderName ++
    "\n// << Patched fading shader END >>\n".toList

/-- `FadingFeature.insertShaderInclude`: literal first-occurrence
search-and-replace of the anchor include directive by the patched block;
`addTab` is the optional fourth parameter (`addTab === true` inserts a
tab before the inserted directive). -/
def insertShaderInclude (shaderContent shaderName insertedShaderName : List Char)
    (addTab : Option Bool) : List Char :=
  listReplaceFirst (includeDirective shaderName)
    (patchedIncludeBlock shaderName insertedShaderName addTab)
    shaderContent

/-- The view of a material as the bare `FadingFeature` interface, where
both properties may be `undefined` (as `FadingFeature.onBeforeCompile`
receives it). -/
structure FadingFeatureRec where
  fadeNear : Option ℚ
  fadeFar : Option ℚ
deriving DecidableEq, Repr

/-- The in-progress shader handed to `onBeforeCompile`: vertex source,
fragment source, and the uniform set. A uniform entry `{ value: v }` is a
binding of the name to an optional scalar (`fadeNear` may be seeded with an
`undefined` material value). -/
structure ShaderState where
  vertexShader : List Char
  fragmentShader : List Char
  uniforms : List (String × Option ℚ)
deriving DecidableEq, Repr

/-- `FadingFeature.onBeforeCompile`: returns the shader unchanged when
`fadeFar` is `undefined` or `<= 0`; otherwise registers the `fadeNear` and
`fadeFar` uniforms from the material's current values and inserts the four
fading includes after the fog anchors (with a tab for the two body
insertions). -/
def onBeforeCompile (fadingMaterial : FadingFeatureRec) (shader : ShaderState) :
    ShaderState :=
  match fadingMaterial.fadeFar with
  | none => shader
  | some ff =>
      if ff ≤ 0 then shader
      else
        let uniforms :=
          assocSet (assocSet shader.uniforms "fadeNear" fadingMaterial.fadeNear)
            "fadeFar" (some ff)
        let vs := insertShaderInclude shader.vertexShader
          "fog_pars_vertex".toList "fading_pars_vertex".toList none
        let vs := insertShaderInclude vs
          "fog_vertex".toList "fading_vertex".toList (some true)
        let fs := insertShaderInclude shader.fragmentShader
          "fog_pars_fragment".toList "fading_pars_fragment".toList none
        let fs := insertShaderInclude fs
          "fog_fragment".toList "fading_fragment".toList (some true)
        { vertexShader := vs, fragmentShader := fs, uniforms := uniforms }

/-- The camera as used here: only the far clipping plane distance is read. -/
structure Camera where
  far : ℚ
deriving DecidableEq, Repr

/-- `cameraToWorldDistance`: scales a normalised [0,1] distance by the
camera's far-plane distance. -/
def cameraToWorldDistance (distance : ℚ) (camera : Camera) : ℚ :=
  distance * camera.far

/-- The `onBeforeRender` callback installed by `FadingFeature.addRenderHelper`
(the optional `additionalCallback`, which cannot touch the modelled state in
a known way, is outside the model). `fadeNear`/`fadeFar` are the normalised
values captured at setup; writing `fadingMaterial.fadeNear = ...` goes
through the mixin property setter. `shaderProps` models
`renderer.properties.get(material).shader`, which may be `undefined`.
Returns the updated material and the updated live shader (if any). -/
def onBeforeRenderHook (fadeNear fadeFar : Option ℚ)
    (forceMaterialToTransparent updateUniforms : Bool) (camera : Camera)
    (shaderProps : Option ShaderState) (material : FadingMixinState) :
    FadingMixinState × Option ShaderState :=
  let material :=
    if forceMaterialToTransparent then { material with transparent := true }
    else material
  let material := setFadeNear material
    (match fadeNear with
     | none => DEFAULT_FADE_NEAR
     | some n => cameraToWorldDistance n camera)
  let material := setFadeFar material
    (match fadeFar with
     | none => DEFAULT_FADE_FAR
     | some f => cameraToWorldDistance f camera)
  if updateUniforms then
    match shaderProps with
    | some shader =>
        ({ material with uniformsNeedUpdate := some true },
         some { shader with
                uniforms :=
                  assocSet
                    (assocSet shader.uniforms "fadeNear" (some (getFadeNear material)))
                    "fadeFar" (some (getFadeFar material)) })
    | none => (material, shaderProps)
  else (material, shaderProps)

/-- The `onAfterRender` callback body installed by `addRenderHelper` when
`forceMaterialToTransparent` is `true`: resets `transparent`. -/
def onAfterRenderHook (material : FadingMixinState) : FadingMixinState :=
  { material with transparent := false }

/-- Per-frame effect of the after-render phase on the material:
`addRenderHelper` installs `onAfterRenderHook` only when
`forceMaterialToTransparent` is `true`; otherwise no callback is installed
and the renderer leaves the material untouched. -/
def applyAfterRender (forceMaterialToTransparent : Bool)
    (material : FadingMixinState) : FadingMixinState :=
  if forceMaterialToTransparent then onAfterRenderHook material else material

/-! ### Helper lemmas -/

lemma assocSet_idem {α : Type} (l : List (String × α)) (k : String) (v : α) :
    assocSet (assocSet l k v) k v = assocSet l k v := by
  induction l with
  | nil => simp [assocSet]
  | cons hd tl ih =>
      obtain ⟨k0, v0⟩ := hd
      by_cases hk : k0 = k
      · subst hk
        simp [assocSet]
      · simp [assocSet, hk, ih]

lemma assocHas_assocSet_self {α : Type} (l : List (String × α)) (k : String)
    (v : α) : assocHas (assocSet l k v) k = true := by
  induction l with
  | nil => simp [assocSet, assocHas]
  | cons hd tl ih =>
      obtain ⟨k0, v0⟩ := hd
      by_cases hk : k0 = k
      · subst hk
        simp [assocSet, assocHas]
      · simp [assocSet, assocHas, hk] at ih ⊢
        exact ih

lemma updateDistanceFadeFeature_m_fadeNear (m : FadingMixinState) :
    (updateDistanceFadeFeature m).m_fadeNear = m.m_fadeNear := by
  unfold updateDistanceFadeFeature
  cases h : m.defines <;> simp [getFadeFar, h] <;> split <;> simp

lemma updateDistanceFadeFeature_m_fadeFar (m : FadingMixinState) :
    (updateDistanceFadeFeature m).m_fadeFar = m.m_fadeFar := by
  unfold updateDistanceFadeFeature
  cases h : m.defines <;> simp [getFadeFar, h] <;> split <;> simp

lemma updateDistanceFadeFeature_transparent (m : FadingMixinState) :
    (updateDistanceFadeFeature m).transparent = m.transparent := by
  unfold updateDistanceFadeFeature
  cases h : m.defines <;> simp [getFadeFar, h] <;> split <;> simp

lemma updateDistanceFadeFeature_needsUpdate (m : FadingMixinState) :
    (updateDistanceFadeFeature m).needsUpdate = some true := by
  unfold updateDistanceFadeFeature
  cases h : m.defines <;> simp [getFadeFar, h] <;> split <;> simp

lemma definesHasFading_updateDistanceFadeFeature (m : FadingMixinState) :
    definesHasFading (updateDistanceFadeFeature m) =
      if 0 < getFadeFar m then true else definesHasFading m := by
  unfold updateDistanceFadeFeature
  by_cases hf : 0 < m.m_fadeFar
  · cases h : m.defines <;>
      simp [definesHasFading, getFadeFar, h, hf, assocHas_assocSet_self]
  · cases h : m.defines <;>
      simp [definesHasFading, getFadeFar, h, hf, assocHas]

lemma setFadeNear_m_fadeNear (m : FadingMixinState) (v : ℚ) :
    (setFadeNear m v).m_fadeNear = v := by
  cases hb : (m.needsUpdate.getD false || v != m.m_fadeNear) <;>
    simp [setFadeNear, hb, updateDistanceFadeFeature_m_fadeNear]

lemma setFadeNear_m_fadeFar (m : FadingMixinState) (v : ℚ) :
    (setFadeNear m v).m_fadeFar = m.m_fadeFar := by
  cases hb : (m.needsUpdate.getD false || v != m.m_fadeNear) <;>
    simp [setFadeNear, hb, updateDistanceFadeFeature_m_fadeFar]

lemma setFadeNear_transparent (m : FadingMixinState) (v : ℚ) :
    (setFadeNear m v).transparent = m.transparent := by
  cases hb : (m.needsUpdate.getD false || v != m.m_fadeNear) <;>
    simp [setFadeNear, hb, updateDistanceFadeFeature_transparent]

lemma setFadeFar_m_fadeFar (m : FadingMixinState) (v : ℚ) :
    (setFadeFar m v).m_fadeFar = v := by
  cases hb : (m.needsUpdate.getD false || v != m.m_fadeFar) <;>
    simp [setFadeFar, hb, updateDistanceFadeFeature_m_fadeFar]

lemma setFadeFar_m_fadeNear (m : FadingMixinState) (v : ℚ) :
    (setFadeFar m v).m_fadeNear = m.m_fadeNear := by
  cases hb : (m.needsUpdate.getD false || v != m.m_fadeFar) <;>
    simp [setFadeFar, hb, updateDistanceFadeFeature_m_fadeNear]

lemma setFadeFar_transparent (m : FadingMixinState) (v : ℚ) :
    (setFadeFar m v).transparent = m.transparent := by
  cases hb : (m.needsUpdate.getD false || v != m.m_fadeFar) <;>
    simp [setFadeFar, hb, updateDistanceFadeFeature_transparent]

/-! ### Claim theorems -/

/-- C8: `updateDistanceFadeFeature` is idempotent on the defines map —
invoking it twice (its own body never changes `fadeFar`, so `fadeFar` is
unchanged between the calls) gives the same defines state after the second
call as after the first. -/
theorem c8_updateDistanceFadeFeature_idempotent_defines (m : FadingMixinState) :
    (updateDistanceFadeFeature (updateDistanceFadeFeature m)).defines =
      (updateDistanceFadeFeature m).defines := by
  unfold updateDistanceFadeFeature
  by_cases hf : 0 < m.m_fadeFar <;> cases h : m.defines <;>
    simp [getFadeFar, h, hf, assocSet_idem]

/-- C1 (as stated) is false: setting `fadeFar` to a value `≤ 0` does not
remove the `FADING_MATERIAL` define. Concretely, on a freshly constructed
material, setting `fadeFar := 1` (define added) and then `fadeFar := -1`
leaves the define present, while the claim requires it absent. -/
theorem c1_counterexample :
    definesHasFading
      (setFadeFar (setFadeFar (newMapMeshBasicMaterial none) 1) (-1)) = true := by
  decide

/-- C1 (amended): setting `fadeFar` to a value `> 0` when it was previously
`≤ 0` puts the `FADING_MATERIAL` define into the defines map; setting
`fadeFar` to a value `≤ 0` does not add the define but also does not remove
it — the define is present afterwards exactly when it was present before. -/
theorem c1_fadeFar_define_amended (m : FadingMixinState) (v : ℚ) :
    (getFadeFar m ≤ 0 → 0 < v →
      definesHasFading (setFadeFar m v) = true) ∧
    (v ≤ 0 →
      definesHasFading (setFadeFar m v) = definesHasFading m) := by
  constructor
  · intro hle hv
    have hle' : m.m_fadeFar ≤ 0 := hle
    have hne : v ≠ m.m_fadeFar := by
      intro he
      rw [he] at hv
      exact absurd (lt_of_lt_of_le hv hle') (lt_irrefl 0)
    have hb : (m.needsUpdate.getD false || v != m.m_fadeFar) = true := by
      simp [bne_iff_ne, hne]
    simp [setFadeFar, hb, definesHasFading_updateDistanceFadeFeature,
      getFadeFar, hv]
  · intro hv
    have hnlt : ¬0 < v := not_lt.mpr hv
    cases hb : (m.needsUpdate.getD false || v != m.m_fadeFar)
    · simp [setFadeFar, hb, definesHasFading]
    · have hstep : setFadeFar m v =
          updateDistanceFadeFeature
            { m with needsUpdate := some true, m_fadeFar := v } := by
        simp [setFadeFar, hb]
      rw [hstep, definesHasFading_updateDistanceFadeFeature]
      simp [getFadeFar, hnlt, definesHasFading]

/-- Witness for `c1_fadeFar_define_amended` at concrete inputs: a fresh
material has `fadeFar = -1 ≤ 0`; setting it to `2` makes the define present,
and setting it to `-3` leaves define-presence as it was. -/
theorem c1_fadeFar_define_amended_witness :
    (getFadeFar initFadingMixinState ≤ 0 ∧ (0 : ℚ) < 2 ∧
      definesHasFading (setFadeFar initFadingMixinState 2) = true) ∧
    ((-3 : ℚ) ≤ 0 ∧
      definesHasFading (setFadeFar initFadingMixinState (-3)) =
        definesHasFading initFadingMixinState) :=
  ⟨⟨by decide, by decide,
      (c1_fadeFar_define_amended initFadingMixinState 2).1 (by decide) (by decide)⟩,
   ⟨by decide,
      (c1_fadeFar_define_amended initFadingMixinState (-3)).2 (by decide)⟩⟩

/-- C3: for every material and value `v`, the `fadeNear`/`fadeFar` setters
(1) leave the "needs update" flag truthy exactly when `v` differs from the
stored value or the flag was already truthy, (2) store `v` so that the
getter returns `v`, and (3) run `updateDistanceFadeFeature` if and only if
the flag is truthy after step 1 (the control flow of the setter is exactly
that conditional call). -/
theorem c3_setter_contract (m : FadingMixinState) (v : ℚ) :
    ((setFadeNear m v).needsUpdate.getD false
        = (m.needsUpdate.getD false || v != m.m_fadeNear)) ∧
    getFadeNear (setFadeNear m v) = v ∧
    (setFadeNear m v =
      (let m1 : FadingMixinState :=
        { m with
          needsUpdate := some (m.needsUpdate.getD false || v != m.m_fadeNear),
          m_fadeNear := v };
       if m1.needsUpdate.getD false then updateDistanceFadeFeature m1 else m1)) ∧
    ((setFadeFar m v).needsUpdate.getD false
        = (m.needsUpdate.getD false || v != m.m_fadeFar)) ∧
    getFadeFar (setFadeFar m v) = v ∧
    (setFadeFar m v =
      (let m1 : FadingMixinState :=
        { m with
          needsUpdate := some (m.needsUpdate.getD false || v != m.m_fadeFar),
          m_fadeFar := v };
       if m1.needsUpdate.getD false then updateDistanceFadeFeature m1 else m1)) := by
  refine ⟨?_, setFadeNear_m_fadeNear m v, rfl, ?_, setFadeFar_m_fadeFar m v, rfl⟩
  · cases hb : (m.needsUpdate.getD false || v != m.m_fadeNear) <;>
      simp [setFadeNear, hb, updateDistanceFadeFeature_needsUpdate]
  · cases hb : (m.needsUpdate.getD false || v != m.m_fadeFar) <;>
      simp [setFadeFar, hb, updateDistanceFadeFeature_needsUpdate]

/-- C10: when the "needs update" flag is `false`, setting `fadeNear`
(respectively `fadeFar`) to the value it already holds leaves the whole
material state unchanged — no field changes and `updateDistanceFadeFeature`
is not run. -/
theorem c10_setter_noop (m : FadingMixinState) (v : ℚ) :
    (m.needsUpdate = some false → v = m.m_fadeNear → setFadeNear m v = m) ∧
    (m.needsUpdate = some false → v = m.m_fadeFar → setFadeFar m v = m) := by
  constructor
  · intro h1 h2
    subst h2
    obtain ⟨nu, df, fn, ff, tr, unu⟩ := m
    simp only at h1
    subst h1
    simp [setFadeNear]
  · intro h1 h2
    subst h2
    obtain ⟨nu, df, fn, ff, tr, unu⟩ := m
    simp only at h1
    subst h1
    simp [setFadeFar]

/-- Witness for `c10_setter_noop`: a concrete material with the flag at
`false` is left exactly unchanged by re-setting both stored values. -/
theorem c10_setter_noop_witness :
    setFadeNear
        { needsUpdate := some false, defines := none, m_fadeNear := -1,
          m_fadeFar := -1, transparent := false, uniformsNeedUpdate := none }
        (-1) =
      { needsUpdate := some false, defines := none, m_fadeNear := -1,
        m_fadeFar := -1, transparent := false, uniformsNeedUpdate := none } ∧
    setFadeFar
        { needsUpdate := some false, defines := none, m_fadeNear := -1,
          m_fadeFar := -1, transparent := false, uniformsNeedUpdate := none }
        (-1) =
      { needsUpdate := some false, defines := none, m_fadeNear := -1,
        m_fadeFar := -1, transparent := false, uniformsNeedUpdate := none } :=
  ⟨(c10_setter_noop _ _).1 rfl rfl, (c10_setter_noop _ _).2 rfl rfl⟩

/-- C7: round-trip through `clone` — a material constructed with
`fadeNear = 0.2` and `fadeFar = 0.8` (exactly 1/5 and 4/5) clones to a
material whose `fadeNear`/`fadeFar` read back exactly those values. -/
theorem c7_clone_roundtrip :
    getFadeNear (cloneMaterial (newMapMeshBasicMaterial
        (some { fadeNear := some (1/5), fadeFar := some (4/5) }))) = 1/5 ∧
    getFadeFar (cloneMaterial (newMapMeshBasicMaterial
        (some { fadeNear := some (1/5), fadeFar := some (4/5) }))) = 4/5 := by
  constructor <;>
    simp [cloneMaterial, copyMaterial, copyFadingParameters,
      newMapMeshBasicMaterial, applyFadingParameters, getFadeNear, getFadeFar,
      setFadeFar_m_fadeNear, setFadeNear_m_fadeNear,
      setFadeFar_m_fadeFar, setFadeNear_m_fadeFar]

/-- C2: one invocation of the before-render hook stores, for each configured
normalised value that was supplied, that value times the camera's far-plane
distance as the material's world-space `fadeNear`/`fadeFar`; for each value
not supplied it stores the disabled sentinel `-1`. -/
theorem c2_before_render_world_space (fadeNear fadeFar : Option ℚ)
    (force updateUniforms : Bool) (camera : Camera)
    (shaderProps : Option ShaderState) (m : FadingMixinState) :
    getFadeNear (onBeforeRenderHook fadeNear fadeFar force updateUniforms
        camera shaderProps m).1 =
      (match fadeNear with
       | some n => n * camera.far
       | none => (-1 : ℚ)) ∧
    getFadeFar (onBeforeRenderHook fadeNear fadeFar force updateUniforms
        camera shaderProps m).1 =
      (match fadeFar with
       | some f => f * camera.far
       | none => (-1 : ℚ)) := by
  cases force <;> cases updateUniforms <;> cases shaderProps <;>
    cases fadeNear <;> cases fadeFar <;>
      simp [onBeforeRenderHook, getFadeNear, getFadeFar,
        setFadeNear_m_fadeNear, setFadeFar_m_fadeNear,
        setFadeNear_m_fadeFar, setFadeFar_m_fadeFar,
        cameraToWorldDistance, DEFAULT_FADE_NEAR, DEFAULT_FADE_FAR]

/-- C6: with `forceMaterialToTransparent = true` the before-render hook sets
`transparent` to `true` and the after-render phase resets it to `false`;
with it `false` the before-render hook leaves `transparent` as it was and no
after-render callback is installed, so the after-render phase changes
nothing. -/
theorem c6_transparency_hooks (fadeNear fadeFar : Option ℚ)
    (force updateUniforms : Bool) (camera : Camera)
    (shaderProps : Option ShaderState) (m mAfter : FadingMixinState) :
    ((onBeforeRenderHook fadeNear fadeFar force updateUniforms camera
        shaderProps m).1.transparent = if force then true else m.transparent) ∧
    ((applyAfterRender force mAfter).transparent =
      if force then false else mAfter.transparent) := by
  constructor
  · cases force <;> cases updateUniforms <;> cases shaderProps <;>
      simp [onBeforeRenderHook, setFadeNear_transparent, setFadeFar_transparent]
  · cases force <;> simp [applyAfterRender, onAfterRenderHook]

/-- C5: when the material's `fadeFar` is `undefined` or `≤ 0`,
`onBeforeCompile` is a no-op — the vertex and fragment sources and the
uniform set are returned exactly as given. -/
theorem c5_onBeforeCompile_noop (f : FadingFeatureRec) (shader : ShaderState)
    (h : f.fadeFar = none ∨ ∃ q, f.fadeFar = some q ∧ q ≤ 0) :
    onBeforeCompile f shader = shader := by
  rcases h with h | ⟨q, hq, hle⟩
  · simp [onBeforeCompile, h]
  · simp [onBeforeCompile, hq, hle]

/-- Witness for `c5_onBeforeCompile_noop`: a material with `fadeFar`
undefined leaves a concrete shader unchanged. -/
theorem c5_onBeforeCompile_noop_witness :
    onBeforeCompile { fadeNear := some (1/10), fadeFar := none }
        { vertexShader := "#include <fog_vertex>".toList,
          fragmentShader := "#include <fog_fragment>".toList,
          uniforms := [] } =
      { vertexShader := "#include <fog_vertex>".toList,
        fragmentShader := "#include <fog_fragment>".toList,
        uniforms := [] } :=
  c5_onBeforeCompile_noop _ _ (Or.inl rfl)

/-! ### String-replacement lemmas for the shader patch -/

lemma isPrefixOf_append_drop (p : List Char) :
    ∀ s : List Char, p.isPrefixOf s = true → p ++ s.drop p.length = s := by
  induction p with
  | nil => intro s _; simp
  | cons a as ih =>
      intro s h
      cases s with
      | nil => simp [List.isPrefixOf] at h
      | cons b bs =>
          simp only [List.isPrefixOf, Bool.and_eq_true, beq_iff_eq] at h
          obtain ⟨hab, hpre⟩ := h
          subst hab
          simpa using ih bs hpre

lemma listReplaceFirst_not_contains (p r : List Char) :
    ∀ s : List Char, containsSub p s = false → listReplaceFirst p r s = s := by
  intro s
  induction s with
  | nil =>
      intro h
      by_cases hp : p.isPrefixOf ([] : List Char) = true
      · simp [containsSub, hp] at h
      · simp [listReplaceFirst, hp]
  | cons c cs ih =>
      intro h
      by_cases hp : p.isPrefixOf (c :: cs) = true
      · simp [containsSub, hp] at h
      · have h' : containsSub p cs = false := by
          unfold containsSub at h
          simpa [hp] using h
        simp [listReplaceFirst, hp, ih h']

lemma listReplaceFirst_contains (p r : List Char) :
    ∀ s : List Char, containsSub p s = true →
      ∃ a b, s = a ++ p ++ b ∧ listReplaceFirst p r s = a ++ r ++ b := by
  intro s
  induction s with
  | nil =>
      intro h
      by_cases hp : p.isPrefixOf ([] : List Char) = true
      · have hp0 : p = [] := by
          cases p with
          | nil => rfl
          | cons a as => simp [List.isPrefixOf] at hp
        subst hp0
        exact ⟨[], [], by simp, by simp [listReplaceFirst, List.isPrefixOf]⟩
      · simp [containsSub, hp] at h
  | cons c cs ih =>
      intro h
      by_cases hp : p.isPrefixOf (c :: cs) = true
      · refine ⟨[], (c :: cs).drop p.length, ?_, ?_⟩
        · simpa using (isPrefixOf_append_drop p (c :: cs) hp).symm
        · simp [listReplaceFirst, hp]
      · have h' : containsSub p cs = true := by
          unfold containsSub at h
          simpa [hp] using h
        obtain ⟨a, b, hs, hr⟩ := ih h'
        exact ⟨c :: a, b, by simp [hs], by simp [listReplaceFirst, hp, hr]⟩

/-- C4: `insertShaderInclude` on a source containing the anchor include
directive replaces the (first occurrence of the) anchor verbatim by the
patched block — the anchor itself followed by the new include directive
wrapped in the marker comments, the inserted directive preceded by a single
tab exactly when `addTab` is `true` (the body insertions) and not otherwise
(the declaration insertions); on a source not containing the anchor it
returns the input unchanged. -/
theorem c4_insertShaderInclude_contract
    (content shaderName insertedShaderName : List Char) (addTab : Option Bool) :
    (containsSub (includeDirective shaderName) content = false →
      insertShaderInclude content shaderName insertedShaderName addTab =
        content) ∧
    (containsSub (includeDirective shaderName) content = true →
      ∃ a b, content = a ++ includeDirective shaderName ++ b ∧
        insertShaderInclude content shaderName insertedShaderName addTab =
          a ++ patchedIncludeBlock shaderName insertedShaderName addTab ++ b) ∧
    patchedIncludeBlock shaderName insertedShaderName (some true) =
      "\n".toList ++ includeDirective shaderName ++
        "\n// << Patched fading shader START >>\n".toList ++ ['\t'] ++
        includeDirective insertedShaderName ++
        "\n// << Patched fading shader END >>\n".toList ∧
    patchedIncludeBlock shaderName insertedShaderName none =
      "\n".toList ++ includeDirective shaderName ++
        "\n// << Patched fading shader START >>\n".toList ++
        includeDirective insertedShaderName ++
        "\n// << Patched fading shader END >>\n".toList := by
  refine ⟨?_, ?_, by simp [patchedIncludeBlock], by simp [patchedIncludeBlock]⟩
  · intro h
    exact listReplaceFirst_not_contains _ _ _ h
  · intro h
    exact listReplaceFirst_contains _ _ _ h

/-- Witness for `c4_insertShaderInclude_contract`: a source without the
anchor is returned unchanged, and a source with the anchor is split around
it with the patched block substituted. -/
theorem c4_insertShaderInclude_contract_witness :
    (containsSub (includeDirective "fog_vertex".toList) "abc".toList = false ∧
      insertShaderInclude "abc".toList "fog_vertex".toList
          "fading_vertex".toList (some true) = "abc".toList) ∧
    (containsSub (includeDirective "fog_vertex".toList)
        "x\n#include <fog_vertex>\ny".toList = true ∧
      ∃ a b, "x\n#include <fog_vertex>\ny".toList =
          a ++ includeDirective "fog_vertex".toList ++ b ∧
        insertShaderInclude "x\n#include <fog_vertex>\ny".toList
            "fog_vertex".toList "fading_vertex".toList (some true) =
          a ++ patchedIncludeBlock "fog_vertex".toList "fading_vertex".toList
              (some true) ++ b) :=
  ⟨⟨by decide,
    (c4_insertShaderInclude_contract "abc".toList "fog_vertex".toList
        "fading_vertex".toList (some true)).1 (by decide)⟩,
   ⟨by decide,
    (c4_insertShaderInclude_contract "x\n#include <fog_vertex>\ny".toList
        "fog_vertex".toList "fading_vertex".toList (some true)).2.1
      (by decide)⟩⟩

/-! ### Global shader-chunk registry -/

/-- Modelled from the spec: the module
`@here/materials/lib/ShaderChunks/FadingChunks` (default export
`fadingShaderChunk`) is not under `src/`. Per the spec it holds the
additional fading shader source chunks, keyed by the include names used by
`onBeforeCompile` (`fading_pars_vertex`, `fading_vertex`,
`fading_pars_fragment`, `fading_fragment`). The GLSL text itself is never
inspected by the code under verification, so it is modelled as opaque
text. -/
structure FadingShaderChunks where
  fading_pars_vertex : List Char
  fading_vertex : List Char
  fading_pars_fragment : List Char
  fading_fragment : List Char
deriving DecidableEq, Repr

/-- Modelled from the spec: the default export of
`ShaderChunks/FadingChunks`, one chunk of opaque shader text per fading
include name. -/
def fadingShaderChunk : FadingShaderChunks :=
  { fading_pars_vertex := "fading vertex declarations".toList
    fading_vertex := "fading vertex body".toList
    fading_pars_fragment := "fading fragment declarations".toList
    fading_fragment := "fading fragment body".toList }

/-- The global `THREE.ShaderChunk` registry: the four fading keys (absent,
i.e. `undefined`, until patched) plus the unrelated built-in chunks, which
`patchGlobalShaderChunks` never touches. -/
structure ShaderChunkRegistry where
  fading_pars_vertex : Option (List Char)
  fading_vertex : Option (List Char)
  fading_pars_fragment : Option (List Char)
  fading_fragment : Option (List Char)
  baseChunks : List (String × List Char)
deriving DecidableEq, Repr

/-- `FadingFeature.patchGlobalShaderChunks`: if
`THREE.ShaderChunk.fading_pars_vertex` is `undefined`, `Object.assign`s the
fading chunks onto the registry; otherwise leaves the registry alone. -/
def patchGlobalShaderChunks (reg : ShaderChunkRegistry) : ShaderChunkRegistry :=
  if reg.fading_pars_vertex = none then
    { reg with
      fading_pars_vertex := some fadingShaderChunk.fading_pars_vertex
      fading_vertex := some fadingShaderChunk.fading_vertex
      fading_pars_fragment := some fadingShaderChunk.fading_pars_fragment
      fading_fragment := some fadingShaderChunk.fading_fragment }
  else reg

/-- The two fading-capable material classes. -/
inductive FadingMaterialKind
  | basic
  | standard
deriving DecidableEq, Repr

/-- Effect of one material construction on the global registry: the
constructors of both `MapMeshBasicMaterial` and `MapMeshStandardMaterial`
call `FadingFeature.patchGlobalShaderChunks`; nothing else in either
constructor touches the registry. -/
def constructRegistryEffect (_kind : FadingMaterialKind)
    (reg : ShaderChunkRegistry) : ShaderChunkRegistry :=
  patchGlobalShaderChunks reg

/-- Registry state after a sequence of material constructions. -/
def constructMaterials (reg : ShaderChunkRegistry)
    (ks : List FadingMaterialKind) : ShaderChunkRegistry :=
  ks.foldl (fun r k => constructRegistryEffect k r) reg

lemma patchGlobalShaderChunks_already (reg : ShaderChunkRegistry)
    (h : reg.fading_pars_vertex ≠ none) : patchGlobalShaderChunks reg = reg := by
  simp [patchGlobalShaderChunks, h]

lemma patchGlobalShaderChunks_result_some (reg : ShaderChunkRegistry) :
    (patchGlobalShaderChunks reg).fading_pars_vertex ≠ none := by
  unfold patchGlobalShaderChunks
  by_cases h : reg.fading_pars_vertex = none
  · simp [h]
  · simp [h]

lemma constructMaterials_patched (ks : List FadingMaterialKind) :
    ∀ reg : ShaderChunkRegistry, reg.fading_pars_vertex ≠ none →
      constructMaterials reg ks = reg := by
  induction ks with
  | nil => intro reg _; rfl
  | cons k ks ih =>
      intro reg h
      have h1 : constructRegistryEffect k reg = reg :=
        patchGlobalShaderChunks_already reg h
      calc constructMaterials reg (k :: ks)
          = constructMaterials (constructRegistryEffect k reg) ks := rfl
        _ = constructMaterials reg ks := by rw [h1]
        _ = reg := ih reg h

/-- C9: across any sequence of `N ≥ 1` constructions of fading-capable
materials (any mix of basic and standard), the registry ends up exactly as
after the single first `patchGlobalShaderChunks` call — every later call
detects the patched state and leaves the registry unchanged — and on an
unpatched registry the first call does mutate it. -/
theorem c9_patch_applied_once (reg : ShaderChunkRegistry)
    (k0 : FadingMaterialKind) (ks : List FadingMaterialKind) :
    constructMaterials reg (k0 :: ks) = patchGlobalShaderChunks reg ∧
    (reg.fading_pars_vertex = none → patchGlobalShaderChunks reg ≠ reg) := by
  constructor
  · calc constructMaterials reg (k0 :: ks)
        = constructMaterials (patchGlobalShaderChunks reg) ks := rfl
      _ = patchGlobalShaderChunks reg :=
        constructMaterials_patched ks _ (patchGlobalShaderChunks_result_some reg)
  · intro h heq
    apply patchGlobalShaderChunks_result_some reg
    rw [heq]
    exact h

/-- Witness for `c9_patch_applied_once`: from the unpatched registry, two
constructions (one of each class) produce exactly the state of one patch
call, and that first call mutates the registry. -/
theorem c9_patch_applied_once_witness :
    constructMaterials
        { fading_pars_vertex := none, fading_vertex := none,
          fading_pars_fragment := none, fading_fragment := none,
          baseChunks := [] }
        [FadingMaterialKind.basic, FadingMaterialKind.standard] =
      patchGlobalShaderChunks
        { fading_pars_vertex := none, fading_vertex := none,
          fading_pars_fragment := none, fading_fragment := none,
          baseChunks := [] } ∧
    patchGlobalShaderChunks
        { fading_pars_vertex := none, fading_vertex := none,
          fading_pars_fragment := none, fading_fragment := none,
          baseChunks := [] } ≠
      { fading_pars_vertex := none, fading_vertex := none,
        fading_pars_fragment := none, fading_fragment := none,
        baseChunks := [] } :=
  ⟨(c9_patch_applied_once _ FadingMaterialKind.basic
      [FadingMaterialKind.standard]).1,
   (c9_patch_applied_once _ FadingMaterialKind.basic
      [FadingMaterialKind.standard]).2 rfl⟩
